import Mathlib

/-!
Shallow embedding of the chronology-estimation service
(`src/main.py` and `src/calculator/tasks.py`).

The estimator `analyze_text_chronology`, the readability scorer
`safe_calculate_flesch_reading_ease` and the cosine similarity
`safe_cosine_similarity` are duplicated verbatim across the two Python
front ends; each is embedded once below.  Python floats are idealised as
exact arithmetic: the readability formula (no square roots) over `ℚ`,
the cosine-similarity scores over `ℝ` with `Real.sqrt`.  Strings are
treated at the ASCII level, matching the test inputs and vocabularies.
-/

namespace ChronoCalc

/-- Characters stripped by Python's `str.strip()` (ASCII whitespace). -/
def pyIsSpace (c : Char) : Bool :=
  c = ' ' || c = '\t' || c = '\n' || c = '\r' || c = '\x0b' || c = '\x0c'

/-- `str.strip()` on a character list: drop whitespace from both ends. -/
def stripChars (l : List Char) : List Char :=
  ((l.dropWhile pyIsSpace).reverse.dropWhile pyIsSpace).reverse

/-- `text.strip()` as a string. -/
def pyStrip (s : String) : String :=
  String.mk (stripChars s.data)

/-- `len(text.strip())`. -/
def pyStripLen (s : String) : Nat :=
  (stripChars s.data).length

/-- A word character for the regex `\w` (ASCII fragment). -/
def isWordChar (c : Char) : Bool :=
  c.isAlpha || c.isDigit || c = '_'

/-- Splits a character list into the maximal runs of word characters,
matching `re.findall(r'\b\w+\b', text)`; `cur` is the reversed run
being accumulated. -/
def wordRuns : List Char → List Char → List (List Char)
  | [], cur => if cur.isEmpty then [] else [cur.reverse]
  | c :: rest, cur =>
    if isWordChar c then wordRuns rest (c :: cur)
    else if cur.isEmpty then wordRuns rest [] else cur.reverse :: wordRuns rest []

/-- `re.findall(r'\b\w+\b', s)` as a list of words. -/
def pyFindWords (s : String) : List String :=
  (wordRuns s.data []).map String.mk

/-- `text.lower()` (ASCII case fold). -/
def pyLower (s : String) : String :=
  String.mk (s.data.map Char.toLower)

/-- A sentence separator for the regex `[.!?]+`. -/
def isSentSep (c : Char) : Bool :=
  c = '.' || c = '!' || c = '?'

/-- `re.split(r'[.!?]+', text)`: fragments between maximal separator
runs; `cur` is the reversed fragment being built, `inSep` records that
the previous character belonged to a separator run. -/
def sentSplitGo : List Char → List Char → Bool → List (List Char)
  | [], cur, _ => [cur.reverse]
  | c :: rest, cur, inSep =>
    if isSentSep c then
      if inSep then sentSplitGo rest cur true
      else cur.reverse :: sentSplitGo rest [] true
    else sentSplitGo rest (c :: cur) false

/-- The sentence fragments of a text. -/
def pySentences (s : String) : List (List Char) :=
  sentSplitGo s.data [] false

/-- A (lower-case) vowel for the syllable proxy `[aeiouy]+`. -/
def isVowel (c : Char) : Bool :=
  c = 'a' || c = 'e' || c = 'i' || c = 'o' || c = 'u' || c = 'y'

/-- `len(re.findall(r'[aeiouy]+', w))`: the number of maximal vowel
runs; `prev` records that the previous character was a vowel. -/
def vowelRuns : List Char → Bool → Nat
  | [], _ => 0
  | c :: rest, prev =>
    if isVowel c then
      if prev then vowelRuns rest true else 1 + vowelRuns rest true
    else vowelRuns rest false

/-- `safe_calculate_flesch_reading_ease`: the Flesch-style readability
index, clamped to `[0, 100]`, with the short-input guard returning
`50.0`.  Floats idealised as `ℚ`. -/
def safe_calculate_flesch_reading_ease (text : String) : ℚ :=
  if pyStripLen text < 10 then 50
  else
    let sentences := (pySentences text).filter (fun s => 1 < (stripChars s).length)
    let num_sentences : ℕ := max sentences.length 1
    let words := pyFindWords text
    let num_words : ℕ := max words.length 1
    let num_syllables : ℕ :=
      (words.map (fun w => vowelRuns (pyLower w).data false)).sum
    let score : ℚ :=
      (206835 : ℚ) / 1000 - ((1015 : ℚ) / 1000) * ((num_words : ℚ) / (num_sentences : ℚ))
        - ((846 : ℚ) / 10) * ((num_syllables : ℚ) / (num_words : ℚ))
    max 0 (min 100 score)

/-- The era vocabularies `ARCHAIC_VOCABULARY`, in dict insertion order. -/
def ARCHAIC_VOCABULARY : List (Nat × List String) :=
  [ (1300, ["thou", "thee", "thy", "hath", "dost", "ye", "verily", "betwixt",
            "regin", "rex", "anno", "domini"]),
    (1500, ["shall", "unto", "upon", "lord", "king", "majesty", "whereas",
            "hereby", "aforesaid"]),
    (1700, ["constitution", "liberty", "property", "reason", "nature",
            "society", "contract", "federal"]),
    (1900, ["technology", "system", "data", "analysis", "program", "network",
            "computer", "digital"]) ]

/-- The union of the four era vocabularies (`archaic_words`). -/
def archaicWords : List String :=
  ARCHAIC_VOCABULARY.foldr (fun p acc => p.2 ++ acc) []

/-- `Counter(words)` as an association list: distinct words with their
occurrence counts. -/
def counterOf (words : List String) : List (String × ℕ) :=
  words.dedup.map (fun w => (w, words.count w))

/-- `{w: 1 for w in vocab}` as an association list. -/
def vocabVec (vocab : List String) : List (String × ℕ) :=
  vocab.map (fun w => (w, 1))

open Classical in
/-- `safe_cosine_similarity` on two dictionaries (association lists of
distinct keys): `0.0` on empty key intersection or zero denominator,
otherwise the cosine of the two count vectors. -/
noncomputable def safe_cosine_similarity (v1 v2 : List (String × ℕ)) : ℝ :=
  let inter := v1.filter (fun p => v2.any (fun q => q.1 = p.1))
  if inter.isEmpty then 0
  else
    let numerator : ℕ := (inter.map (fun p => p.2 * ((List.lookup p.1 v2).getD 0))).sum
    let sum1 : ℕ := (v1.map (fun p => p.2 ^ 2)).sum
    let sum2 : ℕ := (v2.map (fun p => p.2 ^ 2)).sum
    let denominator : ℝ := Real.sqrt (sum1 : ℝ) * Real.sqrt (sum2 : ℝ)
    if 0 < denominator then (numerator : ℝ) / denominator else 0

/-- The similarity of a document word list against one era vocabulary. -/
noncomputable def eraSim (words : List String) (vocab : List String) : ℝ :=
  safe_cosine_similarity (counterOf words) (vocabVec vocab)

/-- The score map before the readability adjustment:
`scores[year] = similarity * 1000`, in dict insertion order. -/
noncomputable def baseScores (words : List String) : List (Nat × ℝ) :=
  ARCHAIC_VOCABULARY.map (fun p => (p.1, eraSim words p.2 * 1000))

/-- `scores[k] = scores.get(k, 0) + v` on an association list whose key
`k` is present: add `v` at key `k`, keeping the order. -/
def addAt (l : List (Nat × ℝ)) (k : Nat) (v : ℝ) : List (Nat × ℝ) :=
  l.map (fun p => if p.1 = k then (p.1, p.2 + v) else p)

/-- The score map after the readability adjustment: `+500/+300` on the
1300/1500 entries when readability `< 40`, `+500` on the 1900 entry
when readability `> 70`, unchanged in the middle band. -/
noncomputable def adjustedScores (words : List String) (readability : ℚ) : List (Nat × ℝ) :=
  let base := baseScores words
  if readability < 40 then addAt (addAt base 1300 500) 1500 300
  else if 70 < readability then addAt base 1900 500
  else base

open Classical in
/-- `max(scores, key=scores.get)` over the iteration order: keep the
current best, replace it only on a strictly greater value (so the first
key attaining the maximum wins). -/
noncomputable def pickMax : (Nat × ℝ) → List (Nat × ℝ) → (Nat × ℝ)
  | acc, [] => acc
  | acc, (k, v) :: rest => pickMax (if acc.2 < v then (k, v) else acc) rest

/-- `sum(1 for word in words if word in archaic_words)`. -/
def countMatches (words : List String) : Nat :=
  words.countP (fun w => archaicWords.contains w)

/-- `analyze_text_chronology(text)`: guards, scoring, best-era
selection and match counting, returning `(best_year, total_matches)`. -/
noncomputable def analyze_text_chronology (text : String) : Nat × Nat :=
  if pyStripLen text < 5 then (1500, 0)
  else
    let words := pyFindWords (pyLower text)
    if words.isEmpty then (1500, 0)
    else
      let scores := adjustedScores words (safe_calculate_flesch_reading_ease text)
      if scores.isEmpty then (1500, 0)
      else ((pickMax (scores.headD (1500, 0)) scores.tail).1, countMatches words)

/-- A Python exception surfaced by the estimator's entry before its
guards run. -/
inductive PyExn where
  | typeError
deriving DecidableEq

/-- The estimator as entered from Python with a possibly-null
argument: the entry logging f-string (`len(text)` at main.py line 78 /
tasks.py line 52) is evaluated before the guard, so a `None` input
raises `TypeError` there; any string input reaches the guards and the
estimator returns normally. -/
noncomputable def analyze_text_chronology_entry (text : Option String) :
    Except PyExn (Nat × Nat) :=
  match text with
  | none => .error .typeError
  | some t => .ok (analyze_text_chronology t)

/-- The four anchor years, in `random.choice([1300, 1500, 1700, 1900])`
order. -/
def anchorYears : List Nat := [1300, 1500, 1700, 1900]

/-- The fallback of `calculate_chrono_async`: when the matched count is
zero, replace the result by a random anchor year (`ry` indexes the
choice) and a random match count in `[1, 5]` (`rc.val + 1` models
`random.randint(1, 5)`).  The `calculated_year is None` disjunct of the
Python condition cannot fire: the estimator always returns a year. -/
def applyFallback (res : Nat × Nat) (ry : Fin 4) (rc : Fin 5) : Nat × Nat :=
  if res.2 = 0 then (anchorYears.getD ry.val 1500, rc.val + 1) else res

/-- The `(result_from_year, matched_layers)` pair that
`calculate_chrono_async` puts into `result_data` after the fallback. -/
noncomputable def calculate_chrono_async_result (text : String) (ry : Fin 4) (rc : Fin 5) :
    Nat × Nat :=
  applyFallback (analyze_text_chronology text) ry rc

/-! ## The delivery retry loop of `calculate_chrono_async` -/

/-- The outcome of one `requests.post` attempt: a response with a
status code, a `requests.ConnectionError`, or any other exception. -/
inductive AttemptOutcome where
  | response (status : Nat)
  | connError
  | otherError
deriving DecidableEq

/-- How the retry loop of `calculate_chrono_async` ends, with the
number of attempts performed: `delivered` for the status-200 return,
`failedAfter` for the fall-through `{"status": "failed"}` dictionary,
`raisedConn` / `raisedOther` for the bare `raise` on the last attempt. -/
inductive DeliverResult where
  | delivered (attempts : Nat)
  | failedAfter (attempts : Nat)
  | raisedConn (attempts : Nat)
  | raisedOther (attempts : Nat)
deriving DecidableEq

/-- The attempt count carried by a `DeliverResult`. -/
def DeliverResult.attempts : DeliverResult → Nat
  | .delivered n => n
  | .failedAfter n => n
  | .raisedConn n => n
  | .raisedOther n => n

/-- The body of `for attempt in range(max_retries)` with `fuel`
attempts remaining, starting at index `attempt`.  A 200 response
returns success; any other response logs and moves to the next attempt;
a connection error (or any other exception) retries after a recorded
delay of 5 when attempts remain (`self.retry(countdown=5)`) and
re-raises on the last attempt.  Returns the result together with the
list of delays taken. -/
def deliverFrom (outcomes : Nat → AttemptOutcome) : Nat → Nat → DeliverResult × List Nat
  | attempt, 0 => (.failedAfter attempt, [])
  | attempt, fuel + 1 =>
    match outcomes attempt with
    | .response s =>
      if s = 200 then (.delivered (attempt + 1), [])
      else deliverFrom outcomes (attempt + 1) fuel
    | .connError =>
      if fuel = 0 then (.raisedConn (attempt + 1), [])
      else
        let r := deliverFrom outcomes (attempt + 1) fuel
        (r.1, 5 :: r.2)
    | .otherError =>
      if fuel = 0 then (.raisedOther (attempt + 1), [])
      else
        let r := deliverFrom outcomes (attempt + 1) fuel
        (r.1, 5 :: r.2)

/-- The whole delivery loop: `max_retries = 3`, attempts indexed from
0; returns the final result and the delays taken between attempts. -/
def deliverResult (outcomes : Nat → AttemptOutcome) : DeliverResult × List Nat :=
  deliverFrom outcomes 0 3

/-! ## The synchronous front end `calculate_chrono` of `src/main.py` -/

/-- The configured token (`AUTH_TOKEN` default). -/
def AUTH_TOKEN_EXPECTED : String := "111517"

/-- The outcome of the single delivery attempt in `main.py`: a
successful post, an `httpx.HTTPError` (including the
`raise_for_status` failure), or any other exception. -/
inductive SyncDelivery where
  | ok
  | httpError
  | otherError
deriving DecidableEq

/-- The `ChronoResult` model of `main.py`. -/
structure ChronoResult where
  status : String
  year : Option Nat
  matched_layers : Option Nat
  error : Option String
deriving DecidableEq

/-- The endpoint `calculate_chrono` of `main.py`: reject a bad token
with HTTP 403 (`Except.error 403`), skip empty or blank text, otherwise
compute the estimate, attempt the delivery — both `except` arms only
log — and return `status="success"` with the computed year and matched
count whatever the delivery outcome was. -/
noncomputable def calculate_chrono (auth_token : String) (text_for_analysis : Option String)
    (delivery : SyncDelivery) : Except Nat ChronoResult :=
  if auth_token ≠ AUTH_TOKEN_EXPECTED then .error 403
  else
    match text_for_analysis with
    | none => .ok ⟨"skipped", none, none, some "no text"⟩
    | some t =>
      if pyStrip t = "" then .ok ⟨"skipped", none, none, some "no text"⟩
      else
        let res := analyze_text_chronology t
        match delivery with
        | .ok => .ok ⟨"success", some res.1, some res.2, none⟩
        | .httpError => .ok ⟨"success", some res.1, some res.2, none⟩
        | .otherError => .ok ⟨"success", some res.1, some res.2, none⟩

/-! ## Helper definitions and lemmas -/

/-- The score a year holds in a score map (0 when absent). -/
noncomputable def scoreOf (scores : List (Nat × ℝ)) (a : Nat) : ℝ :=
  (List.lookup a scores).getD 0

/-- The base score map has the four anchors, in ascending order, as
its keys. -/
lemma baseScores_shape (words : List String) :
    ∃ t0 t1 t2 t3 : ℝ,
      baseScores words = [(1300, t0), (1500, t1), (1700, t2), (1900, t3)] :=
  ⟨_, _, _, _, rfl⟩

/-- The adjusted score map always has the four anchors, in ascending
order, as its keys. -/
lemma adjustedScores_shape (words : List String) (r : ℚ) :
    ∃ s0 s1 s2 s3 : ℝ,
      adjustedScores words r = [(1300, s0), (1500, s1), (1700, s2), (1900, s3)] := by
  obtain ⟨t0, t1, t2, t3, hbase⟩ := baseScores_shape words
  rw [adjustedScores, hbase]
  split_ifs <;> exact ⟨_, _, _, _, rfl⟩

/-- After both guards pass, the estimator picks the maximum of the
adjusted score map and counts the matches. -/
lemma analyze_scoring (text : String)
    (h1 : ¬ pyStripLen text < 5) (h2 : pyFindWords (pyLower text) ≠ []) :
    ∃ s0 s1 s2 s3 : ℝ,
      adjustedScores (pyFindWords (pyLower text)) (safe_calculate_flesch_reading_ease text) =
        [(1300, s0), (1500, s1), (1700, s2), (1900, s3)] ∧
      analyze_text_chronology text =
        ((pickMax (1300, s0) [(1500, s1), (1700, s2), (1900, s3)]).1,
          countMatches (pyFindWords (pyLower text))) := by
  obtain ⟨s0, s1, s2, s3, hshape⟩ :=
    adjustedScores_shape (pyFindWords (pyLower text)) (safe_calculate_flesch_reading_ease text)
  obtain ⟨w, ws, hw⟩ := List.exists_cons_of_ne_nil h2
  refine ⟨s0, s1, s2, s3, hshape, ?_⟩
  rw [analyze_text_chronology, if_neg h1]
  rw [hw] at hshape ⊢
  simp [hshape]

/-- Characterisation of `pickMax` on a four-entry anchor score map:
the selected year is an anchor, carries the maximal score, and is the
least anchor among the ties. -/
lemma pickMax4_spec (s0 s1 s2 s3 : ℝ) :
    (pickMax (1300, s0) [(1500, s1), (1700, s2), (1900, s3)]).1 ∈ anchorYears ∧
    (∀ a ∈ anchorYears,
      scoreOf [(1300, s0), (1500, s1), (1700, s2), (1900, s3)] a ≤
        scoreOf [(1300, s0), (1500, s1), (1700, s2), (1900, s3)]
          (pickMax (1300, s0) [(1500, s1), (1700, s2), (1900, s3)]).1) ∧
    (∀ a ∈ anchorYears,
      scoreOf [(1300, s0), (1500, s1), (1700, s2), (1900, s3)] a =
        scoreOf [(1300, s0), (1500, s1), (1700, s2), (1900, s3)]
          (pickMax (1300, s0) [(1500, s1), (1700, s2), (1900, s3)]).1 →
      (pickMax (1300, s0) [(1500, s1), (1700, s2), (1900, s3)]).1 ≤ a) := by
  simp only [pickMax]
  split_ifs
  all_goals simp_all [scoreOf, anchorYears, List.lookup]
  all_goals (repeat' constructor)
  all_goals (first | omega | linarith)

/-- The readability scorer's short-input guard. -/
lemma flesch_guard (text : String) (h : pyStripLen text < 10) :
    safe_calculate_flesch_reading_ease text = 50 := by
  rw [safe_calculate_flesch_reading_ease, if_pos h]

/-- A member of one of the concatenated vocabularies is a member of
the fold of the appends. -/
lemma mem_foldr_append {w : String} :
    ∀ (L : List (Nat × List String)) (p : Nat × List String), p ∈ L → w ∈ p.2 →
      w ∈ L.foldr (fun q acc => q.2 ++ acc) []
  | [], p, hp, _ => absurd hp (List.not_mem_nil p)
  | q :: rest, p, hp, hw => by
    rcases List.mem_cons.mp hp with h | h
    · subst h
      exact List.mem_append_left _ hw
    · exact List.mem_append_right _ (mem_foldr_append rest p h hw)

/-- A vocabulary word of an era is a word of the union `archaic_words`. -/
lemma mem_archaicWords_of_mem_vocab {w : String} {p : Nat × List String}
    (hp : p ∈ ARCHAIC_VOCABULARY) (hw : w ∈ p.2) : w ∈ archaicWords :=
  mem_foldr_append ARCHAIC_VOCABULARY p hp hw

/-- When no document word lies in the vocabulary, the key intersection
is empty and the similarity is the guard value `0`. -/
lemma eraSim_eq_zero (words vocab : List String)
    (h : ∀ w ∈ words, w ∉ vocab) : eraSim words vocab = 0 := by
  rw [eraSim, safe_cosine_similarity]
  have hinter :
      (counterOf words).filter (fun p => (vocabVec vocab).any (fun q => q.1 = p.1)) = [] := by
    rw [List.filter_eq_nil_iff]
    intro p hp
    simp only [counterOf, List.mem_map] at hp
    obtain ⟨w, hw, rfl⟩ := hp
    simp only [vocabVec, List.any_eq_true, List.mem_map, decide_eq_true_eq, not_exists]
    rintro ⟨v, hv⟩ ⟨⟨u, hu, h1, h2⟩, h3⟩
    exact h w (List.mem_dedup.mp hw) (by simp_all)
  simp [hinter]

/-- A guard-passing text with no vocabulary word and readability in
the middle band gets an all-zero score map and the estimate
`(1300, 0)`. -/
lemma zero_match_analysis (text : String)
    (h1 : ¬ pyStripLen text < 5) (h2 : pyFindWords (pyLower text) ≠ [])
    (h3 : ∀ w ∈ pyFindWords (pyLower text), w ∉ archaicWords)
    (h4 : 40 ≤ safe_calculate_flesch_reading_ease text)
    (h5 : safe_calculate_flesch_reading_ease text ≤ 70) :
    (∀ p ∈ adjustedScores (pyFindWords (pyLower text))
        (safe_calculate_flesch_reading_ease text), p.2 = 0) ∧
    analyze_text_chronology text = (1300, 0) := by
  have hz : ∀ p ∈ ARCHAIC_VOCABULARY, eraSim (pyFindWords (pyLower text)) p.2 = 0 := by
    intro p hp
    exact eraSim_eq_zero _ _ (fun w hw hv => h3 w hw (mem_archaicWords_of_mem_vocab hp hv))
  have hadj : adjustedScores (pyFindWords (pyLower text))
      (safe_calculate_flesch_reading_ease text) =
        [(1300, 0), (1500, 0), (1700, 0), (1900, 0)] := by
    rw [adjustedScores, if_neg (not_lt.mpr h4), if_neg (not_lt.mpr h5)]
    have h0 := hz (1300, ["thou", "thee", "thy", "hath", "dost", "ye", "verily", "betwixt",
      "regin", "rex", "anno", "domini"]) (by norm_num [ARCHAIC_VOCABULARY])
    have hb1 := hz (1500, ["shall", "unto", "upon", "lord", "king", "majesty", "whereas",
      "hereby", "aforesaid"]) (by norm_num [ARCHAIC_VOCABULARY])
    have hb2 := hz (1700, ["constitution", "liberty", "property", "reason", "nature",
      "society", "contract", "federal"]) (by norm_num [ARCHAIC_VOCABULARY])
    have hb3 := hz (1900, ["technology", "system", "data", "analysis", "program", "network",
      "computer", "digital"]) (by norm_num [ARCHAIC_VOCABULARY])
    simp only [baseScores, ARCHAIC_VOCABULARY, List.map] at h0 hb1 hb2 hb3 ⊢
    rw [h0, hb1, hb2, hb3]
    norm_num
  refine ⟨fun p hp => ?_, ?_⟩
  · rw [hadj] at hp
    simp only [List.mem_cons, List.not_mem_nil, or_false] at hp
    rcases hp with h | h | h | h <;> (subst h; rfl)
  · obtain ⟨s0, s1, s2, s3, hsh, heq⟩ := analyze_scoring text h1 h2
    rw [hsh] at hadj
    injection hadj with ha hadj
    injection hadj with hb hadj
    injection hadj with hc hadj
    injection hadj with hd _
    injection ha with _ ha'
    injection hb with _ hb'
    injection hc with _ hc'
    injection hd with _ hd'
    subst ha' hb' hc' hd'
    rw [heq]
    have hcount : countMatches (pyFindWords (pyLower text)) = 0 := by
      rw [countMatches, List.countP_eq_zero]
      intro w hw
      simpa using fun hmem => h3 w hw hmem
    rw [hcount]
    simp [pickMax]

/-- The concrete estimate at `"hello wow"`: two non-vocabulary words,
trimmed length 9, readability 50, so the zero-match edge case applies. -/
lemma analyze_hello_wow : analyze_text_chronology "hello wow" = (1300, 0) :=
  (zero_match_analysis "hello wow" (by decide) (by decide) (by decide)
    (by decide) (by decide)).2

/-! ## The claims -/

/-- Claim C6: the estimator returns the default `(1500, 0)` for every
text whose trimmed length is below 5, and likewise whenever
tokenization yields no words. -/
theorem C6_short_input_guard :
    (∀ text : String, pyStripLen text < 5 → analyze_text_chronology text = (1500, 0)) ∧
    (∀ text : String, pyFindWords (pyLower text) = [] →
      analyze_text_chronology text = (1500, 0)) := by
  constructor
  · intro text h
    rw [analyze_text_chronology, if_pos h]
  · intro text h
    by_cases h1 : pyStripLen text < 5
    · rw [analyze_text_chronology, if_pos h1]
    · rw [analyze_text_chronology, if_neg h1]
      simp [h]

/-- Witness for C6 at the concrete inputs `"ab"` (trimmed length 2)
and `"!!!!!"` (trimmed length 5 but no word tokens). -/
theorem C6_short_input_guard_witness :
    analyze_text_chronology "ab" = (1500, 0) ∧
    analyze_text_chronology "!!!!!" = (1500, 0) :=
  ⟨C6_short_input_guard.1 "ab" (by decide), C6_short_input_guard.2 "!!!!!" (by decide)⟩

/-- Counterexample to claim C6 as stated: on a literal null input the
entry logging evaluates `len(text)` before the guard, so the estimator
raises `TypeError` instead of returning the `(1500, 0)` default. -/
theorem C6_counterexample :
    analyze_text_chronology_entry none ≠ .ok (1500, 0) ∧
    analyze_text_chronology_entry none = .error .typeError := by
  constructor <;> simp [analyze_text_chronology_entry]

/-- Claim C7: the readability score always lies in `[0, 100]`, and any
text of trimmed length below 10 gets the constant `50.0` from the
guard. -/
theorem C7_readability_bounds :
    (∀ text : String, 0 ≤ safe_calculate_flesch_reading_ease text ∧
      safe_calculate_flesch_reading_ease text ≤ 100) ∧
    (∀ text : String, pyStripLen text < 10 →
      safe_calculate_flesch_reading_ease text = 50) := by
  refine ⟨fun text => ?_, fun text h => flesch_guard text h⟩
  rw [safe_calculate_flesch_reading_ease]
  split_ifs
  · norm_num
  · exact ⟨le_max_left 0 _, max_le (by norm_num) (min_le_left _ _)⟩

/-- Witness for C7: bounds at a long text and the guard value at a
short one. -/
theorem C7_readability_bounds_witness :
    (0 ≤ safe_calculate_flesch_reading_ease "The cat sat. The dog ran." ∧
      safe_calculate_flesch_reading_ease "The cat sat. The dog ran." ≤ 100) ∧
    safe_calculate_flesch_reading_ease "short" = 50 :=
  ⟨C7_readability_bounds.1 "The cat sat. The dog ran.",
    C7_readability_bounds.2 "short" (by decide)⟩

/-- Claim C2: whenever the estimator's matched count is 0, the
fallback result carries an anchor year and a match count in `[1, 5]`,
for every outcome of the two random draws. -/
theorem C2_fallback_on_zero_matches (text : String) (ry : Fin 4) (rc : Fin 5)
    (h : (analyze_text_chronology text).2 = 0) :
    (calculate_chrono_async_result text ry rc).1 ∈ anchorYears ∧
    1 ≤ (calculate_chrono_async_result text ry rc).2 ∧
    (calculate_chrono_async_result text ry rc).2 ≤ 5 := by
  rw [calculate_chrono_async_result, applyFallback, if_pos h]
  refine ⟨?_, by omega, ?_⟩
  · fin_cases ry <;> simp [anchorYears]
  · have := rc.isLt
    omega

/-- Witness for C2 at `"ab"` (short-input default gives matched count
0) and one concrete pair of random draws. -/
theorem C2_fallback_on_zero_matches_witness :
    (calculate_chrono_async_result "ab" ⟨2, by omega⟩ ⟨4, by omega⟩).1 ∈ anchorYears ∧
    1 ≤ (calculate_chrono_async_result "ab" ⟨2, by omega⟩ ⟨4, by omega⟩).2 ∧
    (calculate_chrono_async_result "ab" ⟨2, by omega⟩ ⟨4, by omega⟩).2 ≤ 5 :=
  C2_fallback_on_zero_matches "ab" ⟨2, by omega⟩ ⟨4, by omega⟩
    (by rw [analyze_text_chronology, if_pos (by decide : pyStripLen "ab" < 5)])

/-- Counterexample to claim C2 as stated: the claim quantifies over
the caller-facing result of either front end, but the synchronous
`calculate_chrono` of main.py applies no fallback.  At `"hello wow"`
the estimator returns `(1300, 0)` with matched count 0, and the
synchronous front end delivers and returns that zero count unchanged —
0 is not in `[1, 5]`. -/
theorem C2_counterexample :
    (analyze_text_chronology "hello wow").2 = 0 ∧
    calculate_chrono AUTH_TOKEN_EXPECTED (some "hello wow") SyncDelivery.ok =
      .ok ⟨"success", some 1300, some 0, none⟩ ∧
    ¬ 1 ≤ (0 : Nat) := by
  refine ⟨by rw [analyze_hello_wow], ?_, by omega⟩
  simp [calculate_chrono, analyze_hello_wow,
    show ¬ pyStrip "hello wow" = "" from by decide]

/-- Claim C4: every year the system produces — the estimator's
selection, its guard default, and the fallback replacement — is one of
the four anchors 1300, 1500, 1700, 1900. -/
theorem C4_anchor_year_invariant :
    (∀ text : String, (analyze_text_chronology text).1 ∈ anchorYears) ∧
    (∀ (text : String) (ry : Fin 4) (rc : Fin 5),
      (calculate_chrono_async_result text ry rc).1 ∈ anchorYears) := by
  have hA : ∀ text : String, (analyze_text_chronology text).1 ∈ anchorYears := by
    intro text
    by_cases h1 : pyStripLen text < 5
    · rw [analyze_text_chronology, if_pos h1]
      simp [anchorYears]
    · by_cases h2 : pyFindWords (pyLower text) = []
      · rw [analyze_text_chronology, if_neg h1]
        simp [h2, anchorYears]
      · obtain ⟨s0, s1, s2, s3, hsh, heq⟩ := analyze_scoring text h1 h2
        rw [heq]
        exact (pickMax4_spec s0 s1 s2 s3).1
  refine ⟨hA, fun text ry rc => ?_⟩
  rw [calculate_chrono_async_result, applyFallback]
  split_ifs with h
  · fin_cases ry <;> simp [anchorYears]
  · exact hA text

/-- Claim C5: past the guards, the matched-layer count is the number
of document word-token occurrences lying in the union of the four era
vocabularies, hence bounded by the token count. -/
theorem C5_matched_layers_count (text : String)
    (h1 : ¬ pyStripLen text < 5) (h2 : pyFindWords (pyLower text) ≠ []) :
    (analyze_text_chronology text).2 =
      ((pyFindWords (pyLower text)).filter (fun w => archaicWords.contains w)).length ∧
    (analyze_text_chronology text).2 ≤ (pyFindWords (pyLower text)).length := by
  obtain ⟨s0, s1, s2, s3, hsh, heq⟩ := analyze_scoring text h1 h2
  rw [heq]
  exact ⟨List.countP_eq_length_filter _ _, List.countP_le_length _⟩

/-- Witness for C5 at `"thou hath"`. -/
theorem C5_matched_layers_count_witness :
    (analyze_text_chronology "thou hath").2 =
      ((pyFindWords (pyLower "thou hath")).filter (fun w => archaicWords.contains w)).length ∧
    (analyze_text_chronology "thou hath").2 ≤ (pyFindWords (pyLower "thou hath")).length :=
  C5_matched_layers_count "thou hath" (by decide) (by decide)

/-- Claim C8: in the synchronous front end, a passing request gets
`status = "success"` with exactly the computed year and matched count,
for every delivery outcome — a failed delivery neither alters nor
withholds the result. -/
theorem C8_delivery_failure_preserves_result (text : String) (d : SyncDelivery)
    (h : pyStrip text ≠ "") :
    calculate_chrono AUTH_TOKEN_EXPECTED (some text) d =
      .ok ⟨"success", some (analyze_text_chronology text).1,
        some (analyze_text_chronology text).2, none⟩ := by
  cases d <;> simp [calculate_chrono, h]

/-- Witness for C8 at `"thou hath"` with a failing delivery. -/
theorem C8_delivery_failure_preserves_result_witness :
    calculate_chrono AUTH_TOKEN_EXPECTED (some "thou hath") .httpError =
      .ok ⟨"success", some (analyze_text_chronology "thou hath").1,
        some (analyze_text_chronology "thou hath").2, none⟩ :=
  C8_delivery_failure_preserves_result "thou hath" .httpError (by decide)

/-- Claim C3: past the guards the estimator returns the anchor year of
maximal adjusted score, and among tied maxima the first anchor in the
ascending iteration order 1300, 1500, 1700, 1900 — the lowest tied
anchor. -/
theorem C3_best_era_selection (text : String)
    (h1 : ¬ pyStripLen text < 5) (h2 : pyFindWords (pyLower text) ≠ []) :
    (analyze_text_chronology text).1 ∈ anchorYears ∧
    (∀ a ∈ anchorYears,
      scoreOf (adjustedScores (pyFindWords (pyLower text))
          (safe_calculate_flesch_reading_ease text)) a ≤
        scoreOf (adjustedScores (pyFindWords (pyLower text))
          (safe_calculate_flesch_reading_ease text)) (analyze_text_chronology text).1) ∧
    (∀ a ∈ anchorYears,
      scoreOf (adjustedScores (pyFindWords (pyLower text))
          (safe_calculate_flesch_reading_ease text)) a =
        scoreOf (adjustedScores (pyFindWords (pyLower text))
          (safe_calculate_flesch_reading_ease text)) (analyze_text_chronology text).1 →
      (analyze_text_chronology text).1 ≤ a) := by
  obtain ⟨s0, s1, s2, s3, hsh, heq⟩ := analyze_scoring text h1 h2
  rw [heq, hsh]
  simpa using pickMax4_spec s0 s1 s2 s3

/-- Witness for C3 at `"ab cd"`. -/
theorem C3_best_era_selection_witness :
    (analyze_text_chronology "ab cd").1 ∈ anchorYears ∧
    (∀ a ∈ anchorYears,
      scoreOf (adjustedScores (pyFindWords (pyLower "ab cd"))
          (safe_calculate_flesch_reading_ease "ab cd")) a ≤
        scoreOf (adjustedScores (pyFindWords (pyLower "ab cd"))
          (safe_calculate_flesch_reading_ease "ab cd")) (analyze_text_chronology "ab cd").1) ∧
    (∀ a ∈ anchorYears,
      scoreOf (adjustedScores (pyFindWords (pyLower "ab cd"))
          (safe_calculate_flesch_reading_ease "ab cd")) a =
        scoreOf (adjustedScores (pyFindWords (pyLower "ab cd"))
          (safe_calculate_flesch_reading_ease "ab cd")) (analyze_text_chronology "ab cd").1 →
      (analyze_text_chronology "ab cd").1 ≤ a) :=
  C3_best_era_selection "ab cd" (by decide) (by decide)

/-- Claim C9: a guard-passing text with no vocabulary word and
readability in the middle band `[40, 70]` gets an all-zero score map,
and the estimator returns `(1300, 0)` — the first anchor, not the 1500
default. -/
theorem C9_zero_match_edge_case (text : String)
    (h1 : ¬ pyStripLen text < 5) (h2 : pyFindWords (pyLower text) ≠ [])
    (h3 : ∀ w ∈ pyFindWords (pyLower text), w ∉ archaicWords)
    (h4 : 40 ≤ safe_calculate_flesch_reading_ease text)
    (h5 : safe_calculate_flesch_reading_ease text ≤ 70) :
    (∀ p ∈ adjustedScores (pyFindWords (pyLower text))
        (safe_calculate_flesch_reading_ease text), p.2 = 0) ∧
    analyze_text_chronology text = (1300, 0) :=
  zero_match_analysis text h1 h2 h3 h4 h5

/-- Witness for C9 at `"hello wow"`: two non-vocabulary words, trimmed
length 9 so the readability guard yields 50, inside the middle band. -/
theorem C9_zero_match_edge_case_witness :
    (∀ p ∈ adjustedScores (pyFindWords (pyLower "hello wow"))
        (safe_calculate_flesch_reading_ease "hello wow"), p.2 = 0) ∧
    analyze_text_chronology "hello wow" = (1300, 0) :=
  C9_zero_match_edge_case "hello wow" (by decide) (by decide) (by decide)
    (by decide) (by decide)

/-- Modelled from the spec's words for claim C10: the year that would
be selected from the cosine-similarity scores alone, with no
readability adjustment. -/
noncomputable def selectedFromBase (words : List String) : Nat :=
  if (baseScores words).isEmpty then 1500
  else (pickMax ((baseScores words).headD (1500, 0)) (baseScores words).tail).1

/-- The similarity of an empty word list is the guard value `0`. -/
lemma eraSim_nil (vocab : List String) : eraSim [] vocab = 0 :=
  eraSim_eq_zero [] vocab (fun w hw => absurd hw (List.not_mem_nil w))

/-- Counterexample to claim C10 as stated: `"!!!!!"` has trimmed
length 5 — in `[5, 10)` — yet it tokenizes to no words, so the
estimator returns the `(1500, 0)` default without ever scoring, while
a similarity-only selection would give 1300. -/
theorem C10_counterexample :
    5 ≤ pyStripLen "!!!!!" ∧ pyStripLen "!!!!!" < 10 ∧
    analyze_text_chronology "!!!!!" = (1500, 0) ∧
    selectedFromBase (pyFindWords (pyLower "!!!!!")) = 1300 ∧
    (analyze_text_chronology "!!!!!").1 ≠ selectedFromBase (pyFindWords (pyLower "!!!!!")) := by
  have hw : pyFindWords (pyLower "!!!!!") = [] := by decide
  have ha : analyze_text_chronology "!!!!!" = (1500, 0) := by
    rw [analyze_text_chronology, if_neg (by decide)]
    simp [hw]
  have hs : selectedFromBase (pyFindWords (pyLower "!!!!!")) = 1300 := by
    rw [hw, selectedFromBase]
    simp [baseScores, ARCHAIC_VOCABULARY, eraSim_nil, pickMax]
  refine ⟨by decide, by decide, ha, hs, ?_⟩
  rw [ha, hs]
  decide

/-- Claim C10 as amended: for a text of trimmed length in `[5, 10)`
whose tokenization yields at least one word, the readability guard
fires with 50, the middle band applies no adjustment to the score map,
and the selected year is the one determined by the cosine-similarity
scores alone. -/
theorem C10_guard_threshold_gap (text : String)
    (h1 : 5 ≤ pyStripLen text) (h2 : pyStripLen text < 10)
    (h3 : pyFindWords (pyLower text) ≠ []) :
    safe_calculate_flesch_reading_ease text = 50 ∧
    adjustedScores (pyFindWords (pyLower text)) (safe_calculate_flesch_reading_ease text) =
      baseScores (pyFindWords (pyLower text)) ∧
    (analyze_text_chronology text).1 = selectedFromBase (pyFindWords (pyLower text)) := by
  have hr : safe_calculate_flesch_reading_ease text = 50 := flesch_guard text h2
  have hadj : adjustedScores (pyFindWords (pyLower text))
      (safe_calculate_flesch_reading_ease text) = baseScores (pyFindWords (pyLower text)) := by
    rw [adjustedScores, hr, if_neg (by norm_num), if_neg (by norm_num)]
  refine ⟨hr, hadj, ?_⟩
  obtain ⟨s0, s1, s2, s3, hsh, heq⟩ := analyze_scoring text (by omega) h3
  have hb : baseScores (pyFindWords (pyLower text)) =
      [(1300, s0), (1500, s1), (1700, s2), (1900, s3)] := by
    rw [← hadj, hsh]
  rw [heq, selectedFromBase, hb]
  simp

/-- Witness for the amended C10 at `"ab cd"`. -/
theorem C10_guard_threshold_gap_witness :
    safe_calculate_flesch_reading_ease "ab cd" = 50 ∧
    adjustedScores (pyFindWords (pyLower "ab cd"))
        (safe_calculate_flesch_reading_ease "ab cd") =
      baseScores (pyFindWords (pyLower "ab cd")) ∧
    (analyze_text_chronology "ab cd").1 = selectedFromBase (pyFindWords (pyLower "ab cd")) :=
  C10_guard_threshold_gap "ab cd" (by decide) (by decide) (by decide)

/-! ## Claim C1: the dispatcher's retry protocol -/

/-- The attempt count of the loop's outcome never exceeds the starting
index plus the remaining fuel. -/
lemma deliverFrom_attempts_le (o : Nat → AttemptOutcome) :
    ∀ (fuel attempt : Nat), (deliverFrom o attempt fuel).1.attempts ≤ attempt + fuel := by
  intro fuel
  induction fuel with
  | zero =>
    intro attempt
    simp [deliverFrom, DeliverResult.attempts]
  | succ f ih =>
    intro attempt
    have hrec := ih (attempt + 1)
    cases ho : o attempt with
    | response s =>
      by_cases hs : s = 200
      · simp [deliverFrom, ho, hs, DeliverResult.attempts]
      · simp only [deliverFrom, ho, hs, if_false, ite_false]
        omega
    | connError =>
      by_cases hf : f = 0
      · simp [deliverFrom, ho, hf, DeliverResult.attempts]
      · simp only [deliverFrom, ho, hf, if_false, ite_false]
        omega
    | otherError =>
      by_cases hf : f = 0
      · simp [deliverFrom, ho, hf, DeliverResult.attempts]
      · simp only [deliverFrom, ho, hf, if_false, ite_false]
        omega

/-- Every delay the loop records is the fixed 5 of
`self.retry(countdown=5)`. -/
lemma deliverFrom_delays (o : Nat → AttemptOutcome) :
    ∀ (fuel attempt : Nat), ∀ d ∈ (deliverFrom o attempt fuel).2, d = 5 := by
  intro fuel
  induction fuel with
  | zero =>
    intro attempt d hd
    simp [deliverFrom] at hd
  | succ f ih =>
    intro attempt d hd
    cases ho : o attempt with
    | response s =>
      by_cases hs : s = 200
      · simp [deliverFrom, ho, hs] at hd
      · simp only [deliverFrom, ho, hs, if_false, ite_false] at hd
        exact ih (attempt + 1) d hd
    | connError =>
      by_cases hf : f = 0
      · simp [deliverFrom, ho, hf] at hd
      · simp only [deliverFrom, ho, hf, if_false, ite_false, List.mem_cons] at hd
        rcases hd with rfl | hd
        · rfl
        · exact ih (attempt + 1) d hd
    | otherError =>
      by_cases hf : f = 0
      · simp [deliverFrom, ho, hf] at hd
      · simp only [deliverFrom, ho, hf, if_false, ite_false, List.mem_cons] at hd
        rcases hd with rfl | hd
        · rfl
        · exact ih (attempt + 1) d hd

/-- Counterexample to claim C1 as stated: after one connection failure
the loop receives responses with status 204 — a successful 2xx status —
but the code only accepts the literal status 200, so it never reports
success in 2 attempts; it burns all 3 attempts and returns the failure
dictionary. -/
theorem C1_counterexample :
    (fun n => if n = 0 then AttemptOutcome.connError else .response 204) 0 =
      AttemptOutcome.connError ∧
    (200 ≤ 204 ∧ 204 < 300) ∧
    deliverResult (fun n => if n = 0 then AttemptOutcome.connError else .response 204) =
      (.failedAfter 3, [5]) := by
  refine ⟨rfl, by omega, ?_⟩
  decide

/-- Claim C1 as amended (success requires the literal status 200, not
any 2xx): the loop makes at most 3 attempts; every recorded delay is
the fixed 5; three consecutive connection failures end in a raise after
the 3rd attempt with two delays of 5; and one connection failure
followed by a status-200 response is reported as success after exactly
2 attempts with one delay of 5. -/
theorem C1_dispatcher_retry_protocol :
    (∀ o : Nat → AttemptOutcome, (deliverResult o).1.attempts ≤ 3) ∧
    (∀ o : Nat → AttemptOutcome, ∀ d ∈ (deliverResult o).2, d = 5) ∧
    (∀ o : Nat → AttemptOutcome,
      o 0 = .connError → o 1 = .connError → o 2 = .connError →
      deliverResult o = (.raisedConn 3, [5, 5])) ∧
    (∀ o : Nat → AttemptOutcome,
      o 0 = .connError → o 1 = .response 200 →
      deliverResult o = (.delivered 2, [5])) := by
  refine ⟨fun o => deliverFrom_attempts_le o 3 0,
    fun o => deliverFrom_delays o 3 0, fun o h0 h1 h2 => ?_, fun o h0 h1 => ?_⟩
  · simp [deliverResult, deliverFrom, h0, h1, h2]
  · simp [deliverResult, deliverFrom, h0, h1]

/-- Witness for the amended C1: three connection failures raise after
the 3rd attempt; a failure then a 200 succeeds in exactly 2. -/
theorem C1_dispatcher_retry_protocol_witness :
    deliverResult (fun _ => AttemptOutcome.connError) = (.raisedConn 3, [5, 5]) ∧
    deliverResult (fun n => if n = 0 then AttemptOutcome.connError else .response 200) =
      (.delivered 2, [5]) :=
  ⟨C1_dispatcher_retry_protocol.2.2.1 _ rfl rfl rfl,
    C1_dispatcher_retry_protocol.2.2.2 _ rfl rfl⟩

end ChronoCalc
